import Mathlib

/-!
Verification of the caching subsystem of the PostgreSQL adapter
(`pg-tool/database.py`): the statement classifier, the cache-key
normalizer, the TTL-bounded result and schema caches, and the
query-execution orchestration around them.

The Python code is shallowly embedded: strings are `String`/`List Char`,
the insertion-ordered Python `dict` caches are association lists in
insertion order (Python 3.7+ dicts preserve insertion order; assigning to
an existing key keeps its position), wall-clock timestamps are `Nat`
values passed explicitly, and the external database collaborator is a
parameter returning `Except`.
-/

namespace PG

/-- Database scalar values appearing in result rows. The concrete value
type is irrelevant to the cache subsystem; rows only need decidable
equality. -/
inductive DBValue where
  | null
  | intVal (i : Int)
  | textVal (s : String)
  | boolVal (b : Bool)
  deriving DecidableEq

/-- `QueryResult` from `models.py`: column names, rows (each a mapping
from column name to value), and a row count. -/
structure QueryResult where
  columns : List String
  rows : List (List (String × DBValue))
  row_count : Nat
  deriving DecidableEq

/-- `ColumnInfo` from `models.py`. -/
structure ColumnInfo where
  name : String
  data_type : String
  is_nullable : Bool
  default_value : Option String
  deriving DecidableEq

/-- `TableSchema` from `models.py`. -/
structure TableSchema where
  schema_name : String
  table_name : String
  columns : List ColumnInfo
  primary_key : List String
  deriving DecidableEq

/-- A raw row of the `information_schema.columns` query issued by
`get_table_schema`: `column_name`, `data_type`, `is_nullable`
(the strings YES or NO, as reported by PostgreSQL), `column_default`. -/
structure ColumnRow where
  column_name : String
  data_type : String
  is_nullable : String
  column_default : Option String
  deriving DecidableEq

/-- Python whitespace for `str.strip` / `str.split`: space, tab, newline,
carriage return, vertical tab, form feed. -/
def pyIsSpace (c : Char) : Bool :=
  c == ' ' || c == '\t' || c == '\n' || c == '\r' ||
    c == Char.ofNat 11 || c == Char.ofNat 12

/-- Python `s.strip()`: drop leading and trailing whitespace. -/
def pyStrip (l : List Char) : List Char :=
  ((l.dropWhile pyIsSpace).reverse.dropWhile pyIsSpace).reverse

/-- Accumulator pass for Python `s.split()`: split on whitespace runs,
discarding empty pieces. `acc` holds the current word reversed. -/
def pyWordsAux : List Char → List Char → List (List Char)
  | [], acc => if acc.isEmpty then [] else [acc.reverse]
  | c :: rest, acc =>
      if pyIsSpace c then
        if acc.isEmpty then pyWordsAux rest [] else acc.reverse :: pyWordsAux rest []
      else pyWordsAux rest (c :: acc)

/-- Python `s.split()` with no separator argument. -/
def pyWords (l : List Char) : List (List Char) :=
  pyWordsAux l []

/-- Rejoin words with single spaces: Python `' '.join(words)`. -/
def joinWords : List (List Char) → List Char
  | [] => []
  | w :: rest =>
    match rest with
    | [] => w
    | _ :: _ => w ++ ' ' :: joinWords rest

/-- Drop everything up to and including the first newline. Used for the
line-comment regex, whose match always ends at a newline. -/
def dropThroughNewline (l : List Char) : List Char :=
  (l.dropWhile (fun c => c != '\n')).drop 1

/-- Fuel-indexed scan implementing the substitution
`re.sub(r'--.*?\n', '', sql)`: on `--`, if a newline follows anywhere,
the match extends through the first newline and is deleted; with no
newline left the regex cannot match at or after this position, so the
remainder is kept verbatim. Fuel bounds the recursion; the caller passes
the input length, which suffices since every step consumes input. -/
def stripLineAux : Nat → List Char → List Char
  | 0, l => l
  | _ + 1, [] => []
  | fuel + 1, '-' :: '-' :: rest =>
      if rest.contains '\n' then stripLineAux fuel (dropThroughNewline rest)
      else '-' :: '-' :: rest
  | fuel + 1, c :: rest => c :: stripLineAux fuel rest

/-- First pass of `_is_write_operation`: remove `--` line comments. -/
def stripLineComments (l : List Char) : List Char :=
  stripLineAux l.length l

/-- Whether the char list contains the two-character terminator of a
block comment. -/
def containsBlockEnd : List Char → Bool
  | '*' :: '/' :: _ => true
  | _ :: rest => containsBlockEnd rest
  | [] => false

/-- Drop everything up to and including the first block-comment
terminator. -/
def dropThroughBlockEnd : List Char → List Char
  | '*' :: '/' :: rest => rest
  | _ :: rest => dropThroughBlockEnd rest
  | [] => []

/-- Fuel-indexed scan implementing the substitution removing block
comments non-greedily across newlines: on an opener, if a terminator
follows, delete through the first terminator; with no terminator left
the regex cannot match again, so the remainder is kept verbatim. -/
def stripBlockAux : Nat → List Char → List Char
  | 0, l => l
  | _ + 1, [] => []
  | fuel + 1, '/' :: '*' :: rest =>
      if containsBlockEnd rest then stripBlockAux fuel (dropThroughBlockEnd rest)
      else '/' :: '*' :: rest
  | fuel + 1, c :: rest => c :: stripBlockAux fuel rest

/-- Second pass of `_is_write_operation`: remove block comments. -/
def stripBlockComments (l : List Char) : List Char :=
  stripBlockAux l.length l

/-- Python `.upper()`, restricted to the ASCII mapping: sufficient for
comparison against the all-ASCII keyword set. -/
def upperWord (w : List Char) : List Char :=
  w.map Char.toUpper

/-- The fixed set of leading keywords classified as write operations. -/
def writeKeywords : List String :=
  ["INSERT", "UPDATE", "DELETE", "DROP", "CREATE",
   "ALTER", "TRUNCATE", "GRANT", "REVOKE", "COMMIT",
   "ROLLBACK", "SAVEPOINT"]

namespace DatabaseManager

/-- The comment-stripping and trimming pipeline of
`_is_write_operation`: remove line comments, remove block comments,
strip surrounding whitespace. -/
def cleanSQL (sql : String) : List Char :=
  pyStrip (stripBlockComments (stripLineComments sql.data))

/-- `DatabaseManager._is_write_operation`: strip comments and
whitespace; an empty remainder is read-only; otherwise the uppercased
first token decides membership in the write-keyword set. The source's
emptiness guard together with the `split()[0]` index is rendered as one
match on the word list (the cleaned text is empty exactly when it has no
words, since it was stripped). -/
def is_write_operation (sql : String) : Bool :=
  match pyWords (cleanSQL sql) with
  | [] => false
  | w :: _ => writeKeywords.contains (String.mk (upperWord w))

/-- `DatabaseManager._get_cache_key`: normalize whitespace by splitting
on whitespace runs and rejoining with single spaces. The source then
takes the MD5 hex digest of the normalized text as the key; the digest
is a deterministic function of the normalized text, so cache-key
equality is modeled by the normalized text itself. -/
def get_cache_key (sql : String) : String :=
  String.mk (joinWords (pyWords sql.data))

end DatabaseManager

/-- A cache map as kept in the source: a Python dict from key to
(value, insertion timestamp), i.e. an association list in insertion
order. -/
abbrev CacheMap (V : Type) := List (String × V × Nat)

/-- Dict membership lookup: the entry stored under a key, if any. -/
def lookupEntry {V : Type} : CacheMap V → String → Option (V × Nat)
  | [], _ => none
  | (k, v, ts) :: rest, key =>
      if k = key then some (v, ts) else lookupEntry rest key

/-- Python `del cache[key]`: remove the entry stored under the key
(the first occurrence; keys are unique in reachable states). -/
def eraseKey {V : Type} : CacheMap V → String → CacheMap V
  | [], _ => []
  | (k, v, ts) :: rest, key =>
      if k = key then rest else (k, v, ts) :: eraseKey rest key

/-- Scan for `min(keys, key=timestamp)`: Python `min` keeps the first
element attaining the minimum in iteration (insertion) order, updating
only on a strictly smaller timestamp. -/
def oldestKeyAux {V : Type} : CacheMap V → String → Nat → String
  | [], bestK, _ => bestK
  | (k, _, ts) :: rest, bestK, bestTs =>
      if ts < bestTs then oldestKeyAux rest k ts else oldestKeyAux rest bestK bestTs

/-- The key with the smallest insertion timestamp (first such key in
insertion order), as computed by `min(cache.keys(), key=...)`. -/
def oldestKey {V : Type} : CacheMap V → Option String
  | [] => none
  | (k, _, ts) :: rest => some (oldestKeyAux rest k ts)

/-- Evict the oldest-by-insertion entry. Python `min` over an empty
dict raises; that case is unreachable under the eviction guard whenever
`max_entries` is positive, and is modeled as a no-op. -/
def evictOldest {V : Type} (m : CacheMap V) : CacheMap V :=
  match oldestKey m with
  | none => m
  | some k => eraseKey m k

/-- Python dict assignment `cache[key] = (v, now)`: overwrite in place
if the key is present (keeping its position in insertion order),
otherwise append. -/
def dictSet {V : Type} : CacheMap V → String → V → Nat → CacheMap V
  | [], key, v, now => [(key, v, now)]
  | (k, w, ts) :: rest, key, v, now =>
      if k = key then (key, v, now) :: rest
      else (k, w, ts) :: dictSet rest key v now

namespace DatabaseManager

/-- `DatabaseManager._get_cached_result`: absent when caching is
disabled or the key is missing; an entry older than the TTL is deleted
(lazy expiry) and reported absent; otherwise the value is returned with
the map untouched (no timestamp refresh). Returns the possibly pruned
map alongside the result. -/
def get_cached_result (ttl : Nat) (cacheEnabled : Bool)
    (cache : CacheMap QueryResult) (cacheKey : String) (now : Nat) :
    Option QueryResult × CacheMap QueryResult :=
  if !cacheEnabled then (none, cache)
  else
    match lookupEntry cache cacheKey with
    | none => (none, cache)
    | some (result, timestamp) =>
        if now - timestamp > ttl then (none, eraseKey cache cacheKey)
        else (some result, cache)

/-- `DatabaseManager._set_cached_result`: no-op when caching is
disabled; if the map is at capacity the oldest-by-insertion entry is
evicted (this size check precedes, and does not consult, presence of the
key being written); then the key is written with the current
timestamp. -/
def set_cached_result (maxSize : Nat) (cacheEnabled : Bool)
    (cache : CacheMap QueryResult) (cacheKey : String) (result : QueryResult)
    (now : Nat) : CacheMap QueryResult :=
  if !cacheEnabled then cache
  else
    let cache1 := if cache.length ≥ maxSize then evictOldest cache else cache
    dictSet cache1 cacheKey result now

end DatabaseManager

/-- The mutable state of a `DatabaseManager`: the write-permission flag,
the cache-enable flag, and the two cache maps. The database connection
itself belongs to the external collaborator and is not modeled. -/
structure ManagerState where
  allow_write_ops : Bool
  cache_enabled : Bool
  query_cache : CacheMap QueryResult
  schema_cache : CacheMap TableSchema
  deriving DecidableEq

/-- Failures of `execute_query`: the policy rejection of a write while
writes are disabled (`ValueError` in the source), and a failure reported
by the database collaborator (`RuntimeError` wrapping a driver error). -/
inductive QueryError where
  | policyError
  | executionError (msg : String)
  deriving DecidableEq

/-- Failures of `get_table_schema`: the not-found rejection for a table
with no columns in `information_schema` (`ValueError` in the source),
and a failure reported by the database collaborator. -/
inductive SchemaError where
  | notFoundError
  | executionError (msg : String)
  deriving DecidableEq

namespace DatabaseManager

/-- `DatabaseManager.clear_cache`: empty both the query-result cache and
the table-schema cache. -/
def clear_cache (st : ManagerState) : ManagerState :=
  { st with query_cache := [], schema_cache := [] }

/-- `DatabaseManager.execute_query`. The external collaborator is the
parameter `db` (one synchronous execution returning a result or a driver
error). The returned triple is (outcome, post-state, whether the
collaborator was invoked). Mirrors the source control flow: classify;
reject a write when writes are disabled; on a permitted write clear both
caches (when caching is enabled) before executing; on a read with
`use_cache`, consult the result cache (which may prune an expired entry)
and return a hit without executing; otherwise execute, store a read
result when `use_cache`, and surface collaborator failure with the cache
state as it stands at that point. -/
def execute_query (ttl maxSize : Nat) (db : String → Except String QueryResult)
    (st : ManagerState) (sql : String) (use_cache : Bool) (now : Nat) :
    Except QueryError QueryResult × ManagerState × Bool :=
  let is_write := is_write_operation sql
  if is_write && !st.allow_write_ops then
    (.error .policyError, st, false)
  else
    let st1 := if is_write && st.cache_enabled then clear_cache st else st
    let checked : Option QueryResult × ManagerState :=
      if !is_write && use_cache then
        let cacheKey := get_cache_key sql
        let res := get_cached_result ttl st1.cache_enabled st1.query_cache cacheKey now
        (res.1, { st1 with query_cache := res.2 })
      else (none, st1)
    match checked with
    | (some result, st2) => (.ok result, st2, false)
    | (none, st2) =>
      match db sql with
      | .error e => (.error (.executionError e), st2, true)
      | .ok result =>
        let stored := set_cached_result maxSize st2.cache_enabled st2.query_cache
          (get_cache_key sql) result now
        let st3 :=
          if !is_write && use_cache then { st2 with query_cache := stored }
          else st2
        (.ok result, st3, true)

/-- `DatabaseManager.get_table_schema`. The external collaborator is the
parameter `db`, merging the source's two metadata queries into one call
returning the `information_schema.columns` rows and the primary-key
column names (or a driver error). The returned triple is (outcome,
post-state, whether the collaborator was invoked). Mirrors the source:
consult the schema cache under the key `schema.table` (serving an
unexpired hit, deleting an expired entry); on a miss ask the
collaborator; empty column rows mean the table does not exist and
nothing is cached; otherwise build the `TableSchema`, cache it when
applicable, and return it. -/
def get_table_schema (ttl : Nat)
    (db : String → String → Except String (List ColumnRow × List String))
    (st : ManagerState) (schema_name table_name : String) (use_cache : Bool)
    (now : Nat) : Except SchemaError TableSchema × ManagerState × Bool :=
  let cacheKey := schema_name ++ "." ++ table_name
  let checked : Option TableSchema × ManagerState :=
    if use_cache && st.cache_enabled then
      match lookupEntry st.schema_cache cacheKey with
      | some (obj, ts) =>
          if now - ts ≤ ttl then (some obj, st)
          else (none, { st with schema_cache := eraseKey st.schema_cache cacheKey })
      | none => (none, st)
    else (none, st)
  match checked with
  | (some obj, st1) => (.ok obj, st1, false)
  | (none, st1) =>
    match db schema_name table_name with
    | .error e => (.error (.executionError e), st1, true)
    | .ok (columnRows, pkRows) =>
      if columnRows.isEmpty then (.error .notFoundError, st1, true)
      else
        let columns := columnRows.map (fun r =>
          ColumnInfo.mk r.column_name r.data_type (r.is_nullable == "YES")
            r.column_default)
        let obj := TableSchema.mk schema_name table_name columns pkRows
        let st2 :=
          if use_cache && st.cache_enabled then
            { st1 with schema_cache := dictSet st1.schema_cache cacheKey obj now }
          else st1
        (.ok obj, st2, true)

end DatabaseManager

/-- Sample query result used by concrete instances. -/
def sampleResultA : QueryResult := ⟨["a"], [], 0⟩

/-- Sample query result used by concrete instances. -/
def sampleResultB : QueryResult := ⟨["b"], [], 0⟩

/-- Sample query result used by concrete instances. -/
def sampleResultC : QueryResult := ⟨["c"], [], 0⟩

/-- Sample table schema used by concrete instances. -/
def sampleSchemaT : TableSchema :=
  ⟨"public", "t", [⟨"id", "integer", false, none⟩], ["id"]⟩

/-- Sample manager state with writes permitted, caching enabled, and one
entry in each cache. -/
def sampleState : ManagerState :=
  ⟨true, true, [("k", sampleResultA, 0)], [("public.t", sampleSchemaT, 0)]⟩

/-! ## Helper lemmas about the cache maps -/

theorem lookupEntry_dictSet_self {V : Type} (m : CacheMap V) (k : String)
    (v : V) (now : Nat) : lookupEntry (dictSet m k v now) k = some (v, now) := by
  induction m with
  | nil => simp [dictSet, lookupEntry]
  | cons e rest ih =>
      obtain ⟨k0, v0, ts0⟩ := e
      by_cases h : k0 = k
      · subst h; simp [dictSet, lookupEntry]
      · simp [dictSet, lookupEntry, h, ih]

theorem lookupEntry_dictSet_ne {V : Type} (m : CacheMap V) (k kx : String)
    (v : V) (now : Nat) (h : kx ≠ k) :
    lookupEntry (dictSet m k v now) kx = lookupEntry m kx := by
  induction m with
  | nil => simp [dictSet, lookupEntry, Ne.symm h]
  | cons e rest ih =>
      obtain ⟨k0, v0, ts0⟩ := e
      by_cases h0 : k0 = k
      · subst h0; simp [dictSet, lookupEntry, Ne.symm h]
      · simp [dictSet, lookupEntry, h0, ih]

theorem lookupEntry_not_mem {V : Type} (m : CacheMap V) (k : String)
    (h : k ∉ m.map (fun e => e.1)) : lookupEntry m k = none := by
  induction m with
  | nil => rfl
  | cons e rest ih =>
      obtain ⟨k0, v0, ts0⟩ := e
      simp only [List.map_cons, List.mem_cons] at h
      push_neg at h
      simp [lookupEntry, Ne.symm h.1, ih h.2]

theorem lookupEntry_eraseKey_self {V : Type} (m : CacheMap V) (k : String)
    (hnd : (m.map (fun e => e.1)).Nodup) :
    lookupEntry (eraseKey m k) k = none := by
  induction m with
  | nil => rfl
  | cons e rest ih =>
      obtain ⟨k0, v0, ts0⟩ := e
      simp only [List.map_cons, List.nodup_cons] at hnd
      by_cases h : k0 = k
      · subst h
        simpa [eraseKey] using lookupEntry_not_mem rest k0 hnd.1
      · simp [eraseKey, h, lookupEntry, ih hnd.2]

theorem lookupEntry_eraseKey_none {V : Type} (m : CacheMap V) (k kx : String)
    (h : lookupEntry m k = none) : lookupEntry (eraseKey m kx) k = none := by
  induction m with
  | nil => rfl
  | cons e rest ih =>
      obtain ⟨k0, v0, ts0⟩ := e
      by_cases h0 : k0 = k
      · subst h0; simp [lookupEntry] at h
      · simp only [lookupEntry, h0, if_false, if_neg h0] at h
        by_cases h1 : k0 = kx
        · simpa [eraseKey, h1] using h
        · simp [eraseKey, h1, lookupEntry, h0, ih h]

theorem lookupEntry_evictOldest_none {V : Type} (m : CacheMap V) (k : String)
    (h : lookupEntry m k = none) : lookupEntry (evictOldest m) k = none := by
  unfold evictOldest
  cases ho : oldestKey m with
  | none => exact h
  | some ko => exact lookupEntry_eraseKey_none m k ko h

namespace DatabaseManager

theorem set_cached_result_lookup_self (maxSize : Nat) (m : CacheMap QueryResult)
    (k : String) (v : QueryResult) (now : Nat) :
    lookupEntry (set_cached_result maxSize true m k v now) k = some (v, now) := by
  show lookupEntry (dictSet (if m.length ≥ maxSize then evictOldest m else m) k v now) k
      = some (v, now)
  exact lookupEntry_dictSet_self _ k v now

theorem get_cached_result_hit {ttl : Nat} {m : CacheMap QueryResult} {k : String}
    {v : QueryResult} {ts : Nat} (now : Nat) (hlk : lookupEntry m k = some (v, ts))
    (h : now - ts ≤ ttl) : get_cached_result ttl true m k now = (some v, m) := by
  simp [get_cached_result, hlk, Nat.not_lt.mpr h]

theorem get_cached_result_none {ttl : Nat} {e : Bool} {m : CacheMap QueryResult}
    {k : String} {now : Nat} (hlk : lookupEntry m k = none) :
    get_cached_result ttl e m k now = (none, m) := by
  cases e <;> simp [get_cached_result, hlk]

theorem get_cached_result_expired {ttl : Nat} {m : CacheMap QueryResult} {k : String}
    {v : QueryResult} {ts : Nat} (now : Nat) (hlk : lookupEntry m k = some (v, ts))
    (h : ttl < now - ts) : get_cached_result ttl true m k now = (none, eraseKey m k) := by
  simp [get_cached_result, hlk, h]

/-! ## Helper lemmas about the execution path -/

theorem execute_query_policy {ttl maxSize : Nat} {db : String → Except String QueryResult}
    {st : ManagerState} {sql : String} {use_cache : Bool} {now : Nat}
    (hw : is_write_operation sql = true) (hna : st.allow_write_ops = false) :
    execute_query ttl maxSize db st sql use_cache now =
      (.error .policyError, st, false) := by
  simp [execute_query, hw, hna]

theorem execute_query_read_hit {ttl maxSize : Nat} {db : String → Except String QueryResult}
    {st : ManagerState} {sql : String} {v : QueryResult} {ts now : Nat}
    (hw : is_write_operation sql = false) (hce : st.cache_enabled = true)
    (hlk : lookupEntry st.query_cache (get_cache_key sql) = some (v, ts))
    (h : now - ts ≤ ttl) :
    execute_query ttl maxSize db st sql true now = (.ok v, st, false) := by
  obtain ⟨a, c, q, s⟩ := st
  dsimp only at hce hlk
  subst hce
  simp [execute_query, hw, get_cached_result_hit now hlk h]

theorem execute_query_read_miss_ok {ttl maxSize : Nat}
    {db : String → Except String QueryResult} {st : ManagerState} {sql : String}
    {r : QueryResult} {now : Nat}
    (hw : is_write_operation sql = false) (hce : st.cache_enabled = true)
    (hlk : lookupEntry st.query_cache (get_cache_key sql) = none)
    (hdb : db sql = .ok r) :
    execute_query ttl maxSize db st sql true now =
      (.ok r, { st with query_cache :=
          set_cached_result maxSize true st.query_cache (get_cache_key sql) r now },
        true) := by
  simp [execute_query, hw, hce, get_cached_result_none hlk, hdb]

theorem execute_query_write_state {ttl maxSize : Nat}
    {db : String → Except String QueryResult} {st : ManagerState} {sql : String}
    {use_cache : Bool} {now : Nat}
    (hw : is_write_operation sql = true) (ha : st.allow_write_ops = true)
    (hce : st.cache_enabled = true) :
    (execute_query ttl maxSize db st sql use_cache now).2.1 = clear_cache st ∧
    (execute_query ttl maxSize db st sql use_cache now).2.2 = true := by
  cases hdb : db sql <;> simp [execute_query, hw, ha, hce, hdb]

theorem execute_query_read_invokes {ttl maxSize : Nat}
    {db : String → Except String QueryResult} {st : ManagerState} {sql : String}
    {use_cache : Bool} {now : Nat}
    (hw : is_write_operation sql = false) (hqc : st.query_cache = []) :
    (execute_query ttl maxSize db st sql use_cache now).2.2 = true := by
  have h0 : lookupEntry st.query_cache (get_cache_key sql) = none := by rw [hqc]; rfl
  cases hdb : db sql <;> cases use_cache <;>
    simp [execute_query, hw, hdb, get_cached_result_none h0]

theorem get_table_schema_notfound {ttl : Nat}
    {db : String → String → Except String (List ColumnRow × List String)}
    {st : ManagerState} {s t : String} {use_cache : Bool} {now : Nat}
    {pks : List String}
    (hlk : lookupEntry st.schema_cache (s ++ "." ++ t) = none)
    (hdb : db s t = .ok ([], pks)) :
    get_table_schema ttl db st s t use_cache now =
      (.error .notFoundError, st, true) := by
  cases h : (use_cache && st.cache_enabled) <;>
    simp [get_table_schema, hlk, hdb, h]

/-! ## Claims -/

/-- Claim C1 is false of the code: on a permitted WRITE the caches are
cleared before the collaborator is invoked, so when the collaborator
reports failure the caches are NOT left as they were. Concretely, a
permitted INSERT whose execution fails leaves both caches empty although
both were nonempty before the call. -/
theorem C1_counterexample :
    execute_query 300 128 (fun _ => .error "duplicate key") sampleState
        "INSERT INTO t VALUES (1)" true 1 =
      (.error (.executionError "duplicate key"), ⟨true, true, [], []⟩, true) ∧
    sampleState.query_cache ≠ [] ∧ sampleState.schema_cache ≠ [] :=
  ⟨rfl, by decide, by decide⟩

/-- Claim C1 amended: for every statement classified WRITE that is
permitted (writes enabled) while caching is enabled, both caches are
cleared on the attempt, before the collaborator is invoked — whether the
collaborator reports success or failure — and a subsequent READ call
(with any key) re-invokes the collaborator. -/
theorem C1_amended_clears_on_attempt (ttl maxSize : Nat)
    (db : String → Except String QueryResult) (st : ManagerState) (sql : String)
    (use_cache : Bool) (now : Nat)
    (hw : is_write_operation sql = true) (ha : st.allow_write_ops = true)
    (hce : st.cache_enabled = true) :
    (execute_query ttl maxSize db st sql use_cache now).2.1.query_cache = [] ∧
    (execute_query ttl maxSize db st sql use_cache now).2.1.schema_cache = [] ∧
    ∀ (db2 : String → Except String QueryResult) (sql2 : String) (uc2 : Bool)
      (now2 : Nat), is_write_operation sql2 = false →
      (execute_query ttl maxSize db2
        (execute_query ttl maxSize db st sql use_cache now).2.1
        sql2 uc2 now2).2.2 = true := by
  refine ⟨?_, ?_, ?_⟩
  · rw [(execute_query_write_state hw ha hce).1]; rfl
  · rw [(execute_query_write_state hw ha hce).1]; rfl
  · intro db2 sql2 uc2 now2 hw2
    have h1 : (execute_query ttl maxSize db st sql use_cache now).2.1.query_cache = [] := by
      rw [(execute_query_write_state hw ha hce).1]; rfl
    exact execute_query_read_invokes hw2 h1

/-- Witness for the amended claim C1 at a concrete permitted write whose
execution fails: the query cache ends empty anyway. -/
theorem C1_amended_witness :
    is_write_operation "DROP TABLE x" = true ∧
    (execute_query 300 128 (fun _ => Except.error "fail") sampleState
        "DROP TABLE x" true 1).2.1.query_cache = [] :=
  ⟨by decide, (C1_amended_clears_on_attempt 300 128 (fun _ => Except.error "fail")
      sampleState "DROP TABLE x" true 1 (by decide) rfl rfl).1⟩

/-- Claim C2 is false of the code: the capacity check of
`_set_cached_result` precedes, and does not consult, presence of the
key, so overwriting key B in a full two-entry cache evicts A, the
oldest other entry — the claim says an overwrite evicts nothing. -/
theorem C2_counterexample :
    lookupEntry [("A", sampleResultA, 1), ("B", sampleResultB, 2)] "B" ≠ none ∧
    set_cached_result 2 true [("A", sampleResultA, 1), ("B", sampleResultB, 2)]
        "B" sampleResultC 5 = [("B", sampleResultC, 5)] ∧
    lookupEntry
        (set_cached_result 2 true [("A", sampleResultA, 1), ("B", sampleResultB, 2)]
          "B" sampleResultC 5) "A" = none := by decide

/-- Claim C2 amended: put always stores the key with the current
timestamp; an overwrite evicts no other entry only when the store is
BELOW `max_entries`; when the store is at `max_entries`, the single
oldest-by-insertion entry is evicted first regardless of whether the key
is already present. -/
theorem C2_amended_put (maxSize : Nat) (m : CacheMap QueryResult) (k : String)
    (v : QueryResult) (now : Nat) :
    lookupEntry (set_cached_result maxSize true m k v now) k = some (v, now) ∧
    (m.length < maxSize → ∀ kx, kx ≠ k →
      lookupEntry (set_cached_result maxSize true m k v now) kx = lookupEntry m kx) ∧
    (∀ ko, maxSize ≤ m.length → oldestKey m = some ko → ko ≠ k →
      (m.map (fun e => e.1)).Nodup →
      lookupEntry (set_cached_result maxSize true m k v now) ko = none) := by
  refine ⟨set_cached_result_lookup_self maxSize m k v now, ?_, ?_⟩
  · intro hlt kx hne
    show lookupEntry (dictSet (if m.length ≥ maxSize then evictOldest m else m) k v now) kx
        = lookupEntry m kx
    rw [if_neg (Nat.not_le.mpr hlt)]
    exact lookupEntry_dictSet_ne m k kx v now hne
  · intro ko hge ho hne hnd
    show lookupEntry (dictSet (if m.length ≥ maxSize then evictOldest m else m) k v now) ko
        = none
    rw [if_pos hge, lookupEntry_dictSet_ne _ k ko v now hne]
    unfold evictOldest
    rw [ho]
    exact lookupEntry_eraseKey_self m ko hnd

/-- Witness for the amended claim C2: an overwrite below capacity
refreshes the entry and preserves the other lookups. -/
theorem C2_amended_witness :
    lookupEntry (set_cached_result 3 true [("A", sampleResultA, 1)] "A" sampleResultB 5)
        "A" = some (sampleResultB, 5) ∧
    ([("A", sampleResultA, 1)] : CacheMap QueryResult).length < 3 ∧
    lookupEntry (set_cached_result 3 true [("A", sampleResultA, 1)] "A" sampleResultB 5)
        "X" = lookupEntry [("A", sampleResultA, 1)] "X" :=
  ⟨(C2_amended_put 3 [("A", sampleResultA, 1)] "A" sampleResultB 5).1, by decide,
    (C2_amended_put 3 [("A", sampleResultA, 1)] "A" sampleResultB 5).2.1 (by decide)
      "X" (by decide)⟩

/-- Claim C3: for every statement classified WRITE, running it with
writes disabled fails with the policy error and never invokes the
execution collaborator. -/
theorem C3_policy_blocks_writes (ttl maxSize : Nat)
    (db : String → Except String QueryResult) (st : ManagerState) (sql : String)
    (use_cache : Bool) (now : Nat)
    (hw : is_write_operation sql = true) (hna : st.allow_write_ops = false) :
    (execute_query ttl maxSize db st sql use_cache now).1 = .error .policyError ∧
    (execute_query ttl maxSize db st sql use_cache now).2.2 = false := by
  rw [execute_query_policy hw hna]
  exact ⟨rfl, rfl⟩

/-- Witness for claim C3 at a concrete rejected DELETE. -/
theorem C3_witness :
    is_write_operation "DELETE FROM t" = true ∧
    (execute_query 300 128 (fun _ => Except.ok sampleResultA)
        ⟨false, true, [], []⟩ "DELETE FROM t" true 7).1 = .error .policyError ∧
    (execute_query 300 128 (fun _ => Except.ok sampleResultA)
        ⟨false, true, [], []⟩ "DELETE FROM t" true 7).2.2 = false :=
  ⟨by decide, C3_policy_blocks_writes 300 128 (fun _ => Except.ok sampleResultA)
      ⟨false, true, [], []⟩ "DELETE FROM t" true 7 (by decide) rfl⟩

/-- Claim C4: two consecutive cached READ calls of the same statement
invoke the collaborator at most once — the second call is a cache hit
and does not invoke it — given that caching is enabled, the first
execution succeeds, no WRITE intervenes (the two calls are consecutive),
and the TTL has not elapsed (neither between the calls nor, for a
pre-existing entry for that key, since its insertion). -/
theorem C4_consecutive_reads (ttl maxSize : Nat)
    (db : String → Except String QueryResult) (st : ManagerState) (sql : String)
    (r : QueryResult) (now1 now2 : Nat)
    (hw : is_write_operation sql = false)
    (hce : st.cache_enabled = true)
    (hdb : db sql = .ok r)
    (h12 : now1 ≤ now2)
    (hfresh : now2 - now1 ≤ ttl)
    (hold : ∀ v ts, lookupEntry st.query_cache (get_cache_key sql) = some (v, ts) →
      now2 - ts ≤ ttl) :
    (execute_query ttl maxSize db
        (execute_query ttl maxSize db st sql true now1).2.1 sql true now2).2.2 = false ∧
    ∃ v, (execute_query ttl maxSize db
        (execute_query ttl maxSize db st sql true now1).2.1 sql true now2).1 =
      Except.ok v := by
  cases hlk : lookupEntry st.query_cache (get_cache_key sql) with
  | some p =>
      obtain ⟨v, ts⟩ := p
      have hts2 : now2 - ts ≤ ttl := hold v ts hlk
      have hts1 : now1 - ts ≤ ttl := le_trans (Nat.sub_le_sub_right h12 ts) hts2
      rw [execute_query_read_hit hw hce hlk hts1]
      dsimp only
      rw [execute_query_read_hit hw hce hlk hts2]
      exact ⟨rfl, v, rfl⟩
  | none =>
      rw [execute_query_read_miss_ok hw hce hlk hdb]
      dsimp only
      have hce2 : (({ st with query_cache := (set_cached_result maxSize true
          st.query_cache (get_cache_key sql) r now1) } : ManagerState)).cache_enabled
          = true := hce
      have hlk2 : lookupEntry
          (set_cached_result maxSize true st.query_cache (get_cache_key sql) r now1)
          (get_cache_key sql) = some (r, now1) :=
        set_cached_result_lookup_self maxSize st.query_cache (get_cache_key sql) r now1
      rw [execute_query_read_hit hw hce2 hlk2 hfresh]
      exact ⟨rfl, r, rfl⟩

/-- Witness for claim C4: a concrete SELECT run twice from an empty
cache; the second call does not invoke the collaborator. -/
theorem C4_witness :
    is_write_operation "SELECT 1" = false ∧
    (execute_query 300 128 (fun _ => Except.ok sampleResultA)
        (execute_query 300 128 (fun _ => Except.ok sampleResultA)
          ⟨false, true, [], []⟩ "SELECT 1" true 0).2.1 "SELECT 1" true 10).2.2 = false :=
  ⟨by decide,
    (C4_consecutive_reads 300 128 (fun _ => Except.ok sampleResultA)
        ⟨false, true, [], []⟩ "SELECT 1" sampleResultA 0 10 (by decide) rfl rfl
        (by decide) (by decide)
        (fun v ts h => by simp [lookupEntry] at h)).1⟩

/-- Claim C5: reads never refresh an entry (an unexpired hit returns the
value and leaves the map unchanged), and eviction is FIFO-by-insertion:
with `max_entries` 2, inserting A then B, reading A, then inserting C
evicts A — the oldest by insertion — even though A was read most
recently. -/
theorem C5_fifo_eviction (ttl0 : Nat) (m : CacheMap QueryResult) (k : String)
    (v : QueryResult) (ts now : Nat)
    (h1 : lookupEntry m k = some (v, ts)) (h2 : now - ts ≤ ttl0) :
    get_cached_result ttl0 true m k now = (some v, m) ∧
    (get_cached_result 300 true
        (set_cached_result 2 true (set_cached_result 2 true [] "A" sampleResultA 1)
          "B" sampleResultB 2) "A" 3).1 = some sampleResultA ∧
    lookupEntry
        (set_cached_result 2 true
          (get_cached_result 300 true
            (set_cached_result 2 true (set_cached_result 2 true [] "A" sampleResultA 1)
              "B" sampleResultB 2) "A" 3).2 "C" sampleResultC 4) "A" = none ∧
    lookupEntry
        (set_cached_result 2 true
          (get_cached_result 300 true
            (set_cached_result 2 true (set_cached_result 2 true [] "A" sampleResultA 1)
              "B" sampleResultB 2) "A" 3).2 "C" sampleResultC 4) "B"
      = some (sampleResultB, 2) ∧
    lookupEntry
        (set_cached_result 2 true
          (get_cached_result 300 true
            (set_cached_result 2 true (set_cached_result 2 true [] "A" sampleResultA 1)
              "B" sampleResultB 2) "A" 3).2 "C" sampleResultC 4) "C"
      = some (sampleResultC, 4) :=
  ⟨get_cached_result_hit now h1 h2, by decide, by decide, by decide, by decide⟩

/-- Witness for claim C5: a concrete unexpired read leaves the map
unchanged. -/
theorem C5_witness :
    lookupEntry [("A", sampleResultA, 1)] "A" = some (sampleResultA, 1) ∧
    get_cached_result 300 true [("A", sampleResultA, 1)] "A" 2 =
      (some sampleResultA, [("A", sampleResultA, 1)]) :=
  ⟨by decide, (C5_fifo_eviction 300 [("A", sampleResultA, 1)] "A" sampleResultA 1 2
      (by decide) (by decide)).1⟩

/-- Claim C6: lazy TTL expiry — a lookup of a key whose entry is older
than the TTL reports absent and removes the entry as a side effect, and
a subsequent put with the same key then stores it as if the slot had
been free. -/
theorem C6_lazy_expiry (ttl maxSize : Nat) (m : CacheMap QueryResult) (k : String)
    (v : QueryResult) (ts now : Nat) (w : QueryResult) (now2 : Nat)
    (hnd : (m.map (fun e => e.1)).Nodup)
    (h1 : lookupEntry m k = some (v, ts)) (h2 : ttl < now - ts) :
    get_cached_result ttl true m k now = (none, eraseKey m k) ∧
    lookupEntry (eraseKey m k) k = none ∧
    lookupEntry (set_cached_result maxSize true (eraseKey m k) k w now2) k
      = some (w, now2) :=
  ⟨get_cached_result_expired now h1 h2, lookupEntry_eraseKey_self m k hnd,
    set_cached_result_lookup_self maxSize (eraseKey m k) k w now2⟩

/-- Witness for claim C6: a concrete expired entry (inserted at 0, read
at 301 with a TTL of 300) reports absent and is removed. -/
theorem C6_witness :
    lookupEntry [("k", sampleResultA, 0)] "k" = some (sampleResultA, 0) ∧
    300 < 301 - 0 ∧
    get_cached_result 300 true [("k", sampleResultA, 0)] "k" 301 = (none, []) :=
  ⟨by decide, by decide,
    (C6_lazy_expiry 300 128 [("k", sampleResultA, 0)] "k" sampleResultA 0 301
      sampleResultB 400 (by decide) (by decide) (by decide)).1⟩

/-- Claim C7: the classifier strips line and block comments and trims
whitespace; an empty remainder is classified READ; otherwise the
classification is membership of the uppercased first token in the fixed
write-keyword set. In particular the three concrete examples of the
specification hold. -/
theorem C7_classifier :
    is_write_operation "-- comment\n  SELECT 1" = false ∧
    is_write_operation "  DROP TABLE x" = true ∧
    is_write_operation "" = false ∧
    (∀ s : String, pyWords (cleanSQL s) = [] → is_write_operation s = false) ∧
    (∀ (s : String) (w : List Char) (ws : List (List Char)),
      pyWords (cleanSQL s) = w :: ws →
      is_write_operation s = writeKeywords.contains (String.mk (upperWord w))) := by
  refine ⟨by decide, by decide, by decide, ?_, ?_⟩
  · intro s h
    unfold is_write_operation
    rw [h]
  · intro s w ws h
    unfold is_write_operation
    rw [h]

/-- Witness for claim C7: a statement that is nothing but a block
comment cleans to the empty text and is classified READ. -/
theorem C7_witness :
    pyWords (cleanSQL "  /* note */  ") = [] ∧
    is_write_operation "  /* note */  " = false :=
  ⟨by decide, C7_classifier.2.2.2.1 "  /* note */  " (by decide)⟩

/-- Claim C8: cache keys are whitespace-insensitive — statements with
the same whitespace-delimited words (differing only in whitespace runs)
normalize to the same key, and in particular the specification's
concrete pair shares one key. -/
theorem C8_normalize_ws (s t : String) (h : pyWords s.data = pyWords t.data) :
    get_cache_key s = get_cache_key t ∧
    get_cache_key "SELECT  *\nFROM t" = get_cache_key "SELECT * FROM t" := by
  constructor
  · unfold get_cache_key
    rw [h]
  · decide

/-- Witness for claim C8: a tab and a space produce the same key. -/
theorem C8_witness :
    pyWords ("SELECT\t1").data = pyWords ("SELECT 1").data ∧
    get_cache_key "SELECT\t1" = get_cache_key "SELECT 1" :=
  ⟨by decide, (C8_normalize_ws "SELECT\t1" "SELECT 1" (by decide)).1⟩

/-- Claim C9: a schema lookup for a table reported absent by the
database (no `information_schema` column rows) fails with the not-found
error and leaves the schema cache without an entry for that key — the
state is unchanged — so a second lookup invokes the collaborator again
and fails the same way, rather than being served from cache. Stated for
keys with no pre-existing cache entry (otherwise the collaborator is
not consulted at all). -/
theorem C9_schema_notfound (ttl : Nat)
    (db : String → String → Except String (List ColumnRow × List String))
    (st : ManagerState) (s t : String) (use_cache : Bool) (now1 now2 : Nat)
    (pks : List String)
    (hlk : lookupEntry st.schema_cache (s ++ "." ++ t) = none)
    (hdb : db s t = .ok ([], pks)) :
    (get_table_schema ttl db st s t use_cache now1).1 = .error .notFoundError ∧
    (get_table_schema ttl db st s t use_cache now1).2.1 = st ∧
    (get_table_schema ttl db
        (get_table_schema ttl db st s t use_cache now1).2.1 s t use_cache now2).1
      = .error .notFoundError ∧
    (get_table_schema ttl db
        (get_table_schema ttl db st s t use_cache now1).2.1 s t use_cache now2).2.2
      = true := by
  have e1 : get_table_schema ttl db st s t use_cache now1 =
      (.error .notFoundError, st, true) := get_table_schema_notfound hlk hdb
  have e2 : get_table_schema ttl db st s t use_cache now2 =
      (.error .notFoundError, st, true) := get_table_schema_notfound hlk hdb
  simp [e1, e2]

/-- Witness for claim C9: a concrete lookup of a missing table. -/
theorem C9_witness :
    lookupEntry sampleState.schema_cache ("public" ++ "." ++ "missing") = none ∧
    (get_table_schema 300 (fun _ _ => Except.ok ([], [])) sampleState "public"
        "missing" true 1).1 = .error .notFoundError :=
  ⟨by decide, (C9_schema_notfound 300 (fun _ _ => Except.ok ([], [])) sampleState
      "public" "missing" true 1 2 [] (by decide) rfl).1⟩

/-- Claim C10: policy rejection is atomic with respect to cache state —
for a statement classified WRITE with writes disabled, the call fails
with the policy error and the whole manager state, in particular both
caches, is exactly as before the call. -/
theorem C10_policy_atomic (ttl maxSize : Nat)
    (db : String → Except String QueryResult) (st : ManagerState) (sql : String)
    (use_cache : Bool) (now : Nat)
    (hw : is_write_operation sql = true) (hna : st.allow_write_ops = false) :
    (execute_query ttl maxSize db st sql use_cache now).2.1 = st ∧
    (execute_query ttl maxSize db st sql use_cache now).1 = .error .policyError := by
  rw [execute_query_policy hw hna]
  exact ⟨rfl, rfl⟩

/-- Witness for claim C10: a concrete rejected TRUNCATE leaves the
nonempty caches untouched. -/
theorem C10_witness :
    is_write_operation "TRUNCATE t" = true ∧
    (execute_query 300 128 (fun _ => Except.ok sampleResultA)
        ⟨false, true, [("k", sampleResultA, 3)], [("public.t", sampleSchemaT, 4)]⟩
        "TRUNCATE t" true 9).2.1 =
      ⟨false, true, [("k", sampleResultA, 3)], [("public.t", sampleSchemaT, 4)]⟩ :=
  ⟨by decide, (C10_policy_atomic 300 128 (fun _ => Except.ok sampleResultA)
      ⟨false, true, [("k", sampleResultA, 3)], [("public.t", sampleSchemaT, 4)]⟩
      "TRUNCATE t" true 9 (by decide) rfl).1⟩

end DatabaseManager

end PG
